import Mathlib

/- Shallow embedding of the everest in-memory unit-of-work core
   (src/everest/repositories/memory/uow.py) and the entity base class
   (src/everest/entities/base.py).

   Python objects are modelled as attribute dictionaries living in an
   explicit store (addresses stand for object identity).  The tracking
   handle `__everest__` is kept as a separate field of the object model;
   it is an underscore-prefixed attribute in the source and is therefore
   never part of the public attribute enumeration, and it is only ever
   accessed through hasattr/getattr/setattr/delattr, so keeping it as a
   dedicated field is an equivalent encoding.  Exceptions raised by the
   Python code (ValueError, AttributeError, KeyError) are modelled with
   an explicit result type.  Generators are modelled by the fully forced
   list they produce, with an exception aborting the whole run, which
   matches what list(gen) observes. -/

namespace Everest

/-- The four lifecycle state strings of OBJECT_STATES in uow.py. -/
inductive StateV where
  | NEW
  | CLEAN
  | DIRTY
  | DELETED
deriving DecidableEq

/-- Python attribute values as far as the unit-of-work core inspects them:
None, small integers, strings and references to other objects. -/
inductive Value where
  | vnone
  | vnat (n : Nat)
  | vstr (s : String)
  | vref (a : Nat)
deriving DecidableEq

/-- An instance __dict__: insertion-ordered name/value pairs. -/
abbrev AttrDict := List (String × Value)

/-- First-match lookup of an attribute name in a __dict__. -/
def lookupAttr : AttrDict → String → Option Value
  | [], _ => none
  | (m, w) :: rest, n => if m = n then some w else lookupAttr rest n

/-- setattr: replace the value of an existing name, else append the pair. -/
def setAttr : AttrDict → String → Value → AttrDict
  | [], n, v => [(n, v)]
  | (m, w) :: rest, n, v =>
      if m = n then (n, v) :: rest else (m, w) :: setAttr rest n v

/-- attr_name.startswith('_') is false, i.e. the attribute is public.
An empty name does not start with an underscore. -/
def isPublicName (n : String) : Bool :=
  match n.data with
  | [] => true
  | c :: _ => c ≠ '_'

/-- EntityStateManager: weak reference to the tracked object (modelled as
the object's store address), the private __state field (None until first
assigned) and the baseline hash __last_state_hash. -/
structure TrackRec where
  objRef : Nat
  state : Option StateV
  lastStateHash : Nat
deriving DecidableEq

/-- The concrete entity classes used in this development.  Entity is the
abstract base class of base.py; widget and gadget are two unrelated
concrete subclasses; widgetSub is a concrete subclass of widget. -/
inductive EClass where
  | entity
  | widget
  | gadget
  | widgetSub
deriving DecidableEq

/-- The method-resolution chain of each class, the class itself first.
isinstance(x, C) holds exactly when C occurs in the chain of x's class. -/
def ancestors : EClass → List EClass
  | .entity => [.entity]
  | .widget => [.widget, .entity]
  | .gadget => [.gadget, .entity]
  | .widgetSub => [.widgetSub, .widget, .entity]

/-- c is d or a (transitive) subclass of d; isinstance of an instance of
c against class d. -/
def isSubclass (c d : EClass) : Bool := d ∈ ancestors c

/-- A Python object: its concrete class, its __dict__ (without the
__everest__ slot, held separately) and the optional __everest__ tracking
handle attached by EntityStateManager.track. -/
structure Obj where
  cls : EClass
  dict : AttrDict
  everest : Option TrackRec
deriving DecidableEq

/-- The heap: addresses to objects, as an association list. -/
abbrev Store := List (Nat × Obj)

def readObj : Store → Nat → Option Obj
  | [], _ => none
  | (b, o) :: rest, a => if a = b then some o else readObj rest a

def writeObj : Store → Nat → Obj → Store
  | [], a, o => [(a, o)]
  | (b, p) :: rest, a, o =>
      if a = b then (a, o) :: rest else (b, p) :: writeObj rest a o

/-- An address not yet used by the store (object allocation). -/
def freshAddr (σ : Store) : Nat :=
  (σ.map (fun e => e.1)).foldr max 0 + 1

/-- Plain attribute assignment entity.name = value on a live object. -/
def storeSetAttr (σ : Store) (a : Nat) (n : String) (v : Value) : Store :=
  match readObj σ a with
  | none => σ
  | some o => writeObj σ a { o with dict := setAttr o.dict n v }

/-- Entity.id: instance attribute when set, else the class attribute
default id = None (base.py line 32). -/
def getId (o : Obj) : Value :=
  (lookupAttr o.dict "id").getD .vnone

/-- Entity.__eq__ (base.py lines 52-53):
isinstance(other, self.__class__) and self.id == other.id. -/
def entityEq (a b : Obj) : Bool :=
  isSubclass b.cls a.cls && (getId a == getId b)

/-- Entity.__ne__ (base.py lines 55-56): not self.__eq__(other). -/
def entityNe (a b : Obj) : Bool := !entityEq a b

/-- The exception kinds the unit-of-work core can raise. -/
inductive PyErr where
  | valueError (msg : String)
  | attributeError (msg : String)
  | keyError (msg : String)
deriving DecidableEq

/-- Result of running a fallible operation. -/
inductive Res (α : Type) where
  | ok (a : α)
  | error (e : PyErr)
deriving DecidableEq

/-- EntityStateManager.get_state_data: the public (not underscore
prefixed) attribute name/value pairs of a __dict__. -/
def get_state_data (d : AttrDict) : AttrDict :=
  d.filter (fun p => isPublicName p.1)

/-- EntityStateManager.set_state_data: setattr every pair of data. -/
def set_state_data (d : AttrDict) (data : AttrDict) : AttrDict :=
  data.foldl (fun acc p => setAttr acc p.1 p.2) d

/-- '%s' rendering of a value. -/
def valueStr : Value → String
  | .vnone => "None"
  | .vnat n => toString n
  | .vstr s => s
  | .vref a => "<entity at " ++ toString a ++ ">"

def stateStr : StateV → String
  | .NEW => "NEW"
  | .CLEAN => "CLEAN"
  | .DIRTY => "DIRTY"
  | .DELETED => "DELETED"

def optStateStr : Option StateV → String
  | none => "None"
  | some s => stateStr s

/-- Accumulating character fold for pyHash. -/
def pyHashAux : List Char → Nat → Nat
  | [], h => h
  | c :: cs, h => pyHashAux cs (h * 31 + c.toNat)

/-- A deterministic stand-in for Python's opaque string hash.  Within one
process Python guarantees only that equal strings hash equal, which any
function satisfies; the code compares hashes of strings produced by one
fixed procedure, so the particular function is immaterial. -/
def pyHash (s : String) : Nat :=
  pyHashAux s.data 5381

/-- The EntityStateManager instance's own __dict__.  Every attribute of
the manager is declared with a double leading underscore inside the
class body, so each is stored under its name-mangled key
_EntityStateManager__xxx, which starts with an underscore. -/
def esmDict (r : TrackRec) : AttrDict :=
  [("_EntityStateManager__obj_ref", .vref r.objRef),
   ("_EntityStateManager__state",
      (r.state.map (fun s => Value.vstr (stateStr s))).getD .vnone),
   ("_EntityStateManager__last_state_hash", .vnat r.lastStateHash)]

/-- ','.join(tokens). -/
def joinTokens : List String → String
  | [] => ""
  | [t] => t
  | t :: rest => t ++ "," ++ joinTokens rest

/-- EntityStateManager.__get_state_string (uow.py lines 81-86): it calls
get_state_data(self) on the manager itself, not on the tracked entity
behind self.__obj_ref, so it enumerates the manager's own all-private
__dict__ and joins the surviving name:value tokens with commas. -/
def get_state_string (r : TrackRec) : String :=
  joinTokens
    ((get_state_data (esmDict r)).map (fun p => p.1 ++ ":" ++ valueStr p.2))

/-- EntityStateManager.__init__: store the weak reference, leave __state
as None and record hash(self.__get_state_string()) as the baseline.  At
the moment the hash is taken __last_state_hash is not yet in self's
__dict__, but since every manager attribute is filtered out anyway the
state string does not depend on it. -/
def ESM_init (a : Nat) : TrackRec :=
  let r0 : TrackRec := { objRef := a, state := none, lastStateHash := 0 }
  { r0 with lastStateHash := pyHash (get_state_string r0) }

/-- EntityStateManager.__get_state (uow.py lines 88-94): return the
stored state, except that a stored CLEAN whose recomputed state-string
hash differs from the baseline is reported as DIRTY. -/
def ESM_get_state (r : TrackRec) : Option StateV :=
  if r.state = some .CLEAN then
    if pyHash (get_state_string r) ≠ r.lastStateHash then some .DIRTY
    else r.state
  else r.state

/-- The __allowed_transitions table (uow.py lines 38-47). -/
def allowed_transitions : List (Option StateV × StateV) :=
  [(none, .NEW),
   (none, .CLEAN),
   (some .NEW, .CLEAN),
   (some .NEW, .DELETED),
   (some .CLEAN, .DIRTY),
   (some .CLEAN, .DELETED),
   (some .DIRTY, .CLEAN),
   (some .DIRTY, .DELETED)]

/-- The ValueError message 'Invalid state transition %s -> %s.' rendered
from the stored __state and the requested state. -/
def invalidTransitionMsg (s : Option StateV) (t : StateV) : String :=
  "Invalid state transition " ++ optStateStr s ++ " -> " ++ stateStr t ++ "."

/-- EntityStateManager.__set_state (uow.py lines 96-100): validate the
pair (self.__get_state(), state) against the table; on success store the
new state, otherwise raise ValueError formatted from self.__state. -/
def ESM_set_state (r : TrackRec) (s : StateV) : Res TrackRec :=
  if (ESM_get_state r, s) ∈ allowed_transitions then
    .ok { r with state := some s }
  else
    .error (.valueError (invalidTransitionMsg r.state s))

/-- EntityStateManager.reset_state (uow.py lines 54-56): assign CLEAN
through the validating state property, then refresh the baseline hash. -/
def ESM_reset_state (r : TrackRec) : Res TrackRec :=
  match ESM_set_state r .CLEAN with
  | .error e => .error e
  | .ok r1 => .ok { r1 with lastStateHash := pyHash (get_state_string r1) }

/-- The object EntityStateManager.clone builds from an entity: a bare
object of the entity's class allocated by object.__new__ (empty __dict__,
no tracking handle) onto which set_state_data copies the entity's public
attributes. -/
def cloneObj (o : Obj) : Obj :=
  { cls := o.cls, dict := set_state_data [] (get_state_data o.dict),
    everest := none }

/-- EntityStateManager.clone (uow.py lines 58-63): allocate the filled
clone at a fresh address. -/
def ESM_clone (σ : Store) (a : Nat) : Option (Store × Nat) :=
  match readObj σ a with
  | none => none
  | some o => some (writeObj σ (freshAddr σ) (cloneObj o), freshAddr σ)

/-- EntityStateManager.track (uow.py lines 65-68): attach a fresh
manager as entity.__everest__, then assign the given state through the
property setter.  track is only ever called with NEW or CLEAN, for which
the (None, state) transition is always allowed, so the error branch of
the setter is unreachable from the callers in this file. -/
def ESM_track (σ : Store) (a : Nat) (s : StateV) : Res Store :=
  match readObj σ a with
  | none => .error (.valueError "dead weak reference")
  | some o =>
      match ESM_set_state (ESM_init a) s with
      | .error e => .error e
      | .ok r => .ok (writeObj σ a { o with everest := some r })

/-- UnitOfWork (uow.py lines 104-232): a defaultdict mapping entity
classes to WeakSets of tracked entities.  A WeakSet holds at most one
entry per object identity; since no claim involves a dead weak
reference, garbage collection of members is not modelled and set
membership is by address. -/
structure UnitOfWork where
  entity_set_map : List (EClass × List Nat)
deriving DecidableEq

/-- defaultdict lookup for iteration purposes: a missing key denotes the
freshly created empty WeakSet. -/
def mapLookup : List (EClass × List Nat) → EClass → List Nat
  | [], _ => []
  | (k, l) :: rest, T => if k = T then l else mapLookup rest T

def mapInsert : List (EClass × List Nat) → EClass → List Nat →
    List (EClass × List Nat)
  | [], T, l => [(T, l)]
  | (k, m) :: rest, T, l =>
      if k = T then (T, l) :: rest else (k, m) :: mapInsert rest T l

/-- self.__entity_set_map[entity_class].add(entity): adding an object
already in the set is a no-op. -/
def uowAdd (u : UnitOfWork) (T : EClass) (a : Nat) : UnitOfWork :=
  let s := mapLookup u.entity_set_map T
  let s2 := if a ∈ s then s else s ++ [a]
  ⟨mapInsert u.entity_set_map T s2⟩

/-- self.__entity_set_map[entity_class].remove(entity). -/
def uowRemove (u : UnitOfWork) (T : EClass) (a : Nat) : UnitOfWork :=
  ⟨mapInsert u.entity_set_map T
    ((mapLookup u.entity_set_map T).filter (fun b => b ≠ a))⟩

/-- UnitOfWork.register_new (uow.py lines 117-127): refuse an entity
that already carries __everest__, else track it as NEW and add it to the
class's set. -/
def register_new (σ : Store) (u : UnitOfWork) (T : EClass) (a : Nat) :
    Res (Store × UnitOfWork) :=
  match readObj σ a with
  | none => .error (.valueError "dead weak reference")
  | some o =>
      if o.everest.isSome then
        .error (.valueError
          "Trying to register a NEW entity that has already been registered!")
      else
        match ESM_track σ a .NEW with
        | .error e => .error e
        | .ok σ1 => .ok (σ1, uowAdd u T a)

/-- UnitOfWork.register_clean (uow.py lines 129-138): clone the entity,
track the clone as CLEAN, add the original to the class's set, return
the clone. -/
def register_clean (σ : Store) (u : UnitOfWork) (T : EClass) (a : Nat) :
    Res (Store × UnitOfWork × Nat) :=
  match ESM_clone σ a with
  | none => .error (.valueError "dead weak reference")
  | some (σ1, c) =>
      match ESM_track σ1 c .CLEAN with
      | .error e => .error e
      | .ok σ2 => .ok (σ2, uowAdd u T a, c)

/-- UnitOfWork.unregister (uow.py lines 140-149): refuse an entity
without __everest__; otherwise remove it from the class's WeakSet (a
KeyError if it is not a member) and delete the __everest__ attribute. -/
def unregister (σ : Store) (u : UnitOfWork) (T : EClass) (a : Nat) :
    Res (Store × UnitOfWork) :=
  match readObj σ a with
  | none => .error (.valueError "dead weak reference")
  | some o =>
      match o.everest with
      | none => .error (.valueError
          "Trying to unregister an entity that has not been registered yet!")
      | some _ =>
          if a ∈ mapLookup u.entity_set_map T then
            .ok (writeObj σ a { o with everest := none }, uowRemove u T a)
          else
            .error (.keyError "entity not in WeakSet")

/-- UnitOfWork.mark_clean (uow.py lines 151-162): refuse an entity
without __everest__, else reset its manager to CLEAN and (re-)add it. -/
def mark_clean (σ : Store) (u : UnitOfWork) (T : EClass) (a : Nat) :
    Res (Store × UnitOfWork) :=
  match readObj σ a with
  | none => .error (.valueError "dead weak reference")
  | some o =>
      match o.everest with
      | none => .error (.valueError
          "Trying to mark an unregistered entity as CLEAN!")
      | some r =>
          match ESM_reset_state r with
          | .error e => .error e
          | .ok r1 =>
              .ok (writeObj σ a { o with everest := some r1 }, uowAdd u T a)

/-- UnitOfWork.mark_deleted (uow.py lines 164-174). -/
def mark_deleted (σ : Store) (u : UnitOfWork) (T : EClass) (a : Nat) :
    Res (Store × UnitOfWork) :=
  match readObj σ a with
  | none => .error (.valueError "dead weak reference")
  | some o =>
      match o.everest with
      | none => .error (.valueError
          "Trying to mark an unregistered entity as DELETED!")
      | some r =>
          match ESM_set_state r .DELETED with
          | .error e => .error e
          | .ok r1 =>
              .ok (writeObj σ a { o with everest := some r1 }, uowAdd u T a)

/-- UnitOfWork.mark_dirty (uow.py lines 176-186). -/
def mark_dirty (σ : Store) (u : UnitOfWork) (T : EClass) (a : Nat) :
    Res (Store × UnitOfWork) :=
  match readObj σ a with
  | none => .error (.valueError "dead weak reference")
  | some o =>
      match o.everest with
      | none => .error (.valueError
          "Trying to mark an unregistered entity as DIRTY!")
      | some r =>
          match ESM_set_state r .DIRTY with
          | .error e => .error e
          | .ok r1 =>
              .ok (writeObj σ a { o with everest := some r1 }, uowAdd u T a)

/-- ent.__everest__.state read during iteration: an AttributeError when
the entity carries no tracking handle. -/
def entState (σ : Store) (a : Nat) : Res (Option StateV) :=
  match readObj σ a with
  | none => .error (.valueError "dead weak reference")
  | some o =>
      match o.everest with
      | none => .error (.attributeError "object has no attribute __everest__")
      | some r => .ok (ESM_get_state r)

/-- Read the derived state of every member of one WeakSet, in order; the
first exception aborts the run. -/
def iterStates (σ : Store) : List Nat → Res (List (Nat × Option StateV))
  | [] => .ok []
  | a :: rest =>
      match entState σ a with
      | .error e => .error e
      | .ok s =>
          match iterStates σ rest with
          | .error e => .error e
          | .ok ps => .ok ((a, s) :: ps)

/-- The key loop of UnitOfWork.__object_iterator (uow.py lines 224-232):
for each key, yield the members of its set whose derived state equals
the requested state. -/
def iterKeys (σ : Store) (u : UnitOfWork) (state : StateV) :
    List EClass → Res (List Nat)
  | [] => .ok []
  | k :: rest =>
      match iterStates σ (mapLookup u.entity_set_map k) with
      | .error e => .error e
      | .ok ps =>
          match iterKeys σ u state rest with
          | .error e => .error e
          | .ok more =>
              .ok (((ps.filter (fun p => p.2 = some state)).map
                      (fun p => p.1)) ++ more)

/-- UnitOfWork.__object_iterator, fully forced: all keys when no class
is given, else just the requested class. -/
def object_iterator (σ : Store) (u : UnitOfWork) (state : StateV)
    (T : Option EClass) : Res (List Nat) :=
  match T with
  | none => iterKeys σ u state (u.entity_set_map.map (fun e => e.1))
  | some k => iterKeys σ u state [k]

/-- UnitOfWork.get_clean (uow.py lines 188-193). -/
def get_clean (σ : Store) (u : UnitOfWork) (T : Option EClass) :
    Res (List Nat) :=
  object_iterator σ u .CLEAN T

/-- UnitOfWork.get_new (uow.py lines 195-200). -/
def get_new (σ : Store) (u : UnitOfWork) (T : Option EClass) :
    Res (List Nat) :=
  object_iterator σ u .NEW T

/-- UnitOfWork.get_deleted (uow.py lines 202-207). -/
def get_deleted (σ : Store) (u : UnitOfWork) (T : Option EClass) :
    Res (List Nat) :=
  object_iterator σ u .DELETED T

/-- UnitOfWork.get_dirty (uow.py lines 209-214). -/
def get_dirty (σ : Store) (u : UnitOfWork) (T : Option EClass) :
    Res (List Nat) :=
  object_iterator σ u .DIRTY T

/-- The loop of UnitOfWork.iterator (uow.py lines 216-219), yielding
(class, entity, state) triples over all keys. -/
def iterAll (σ : Store) (u : UnitOfWork) :
    List EClass → Res (List (EClass × Nat × Option StateV))
  | [] => .ok []
  | k :: rest =>
      match iterStates σ (mapLookup u.entity_set_map k) with
      | .error e => .error e
      | .ok ps =>
          match iterAll σ u rest with
          | .error e => .error e
          | .ok more => .ok ((ps.map (fun p => (k, p.1, p.2))) ++ more)

/-- UnitOfWork.iterator, fully forced. -/
def uow_iterator (σ : Store) (u : UnitOfWork) :
    Res (List (EClass × Nat × Option StateV)) :=
  iterAll σ u (u.entity_set_map.map (fun e => e.1))

/-- UnitOfWork.reset (uow.py lines 221-222): clear the class-to-set map
and nothing else. -/
def uow_reset (_u : UnitOfWork) : UnitOfWork := ⟨[]⟩

/- Concrete scenario data: a single widget entity with id 7 and name "a"
living at address 1 of the store, and a fresh unit of work. -/

/-- A widget entity as produced by Widget(id=7) with a name attribute:
its __dict__ holds the public attributes id and name. -/
def w0 : Obj :=
  { cls := .widget, dict := [("id", .vnat 7), ("name", .vstr "a")],
    everest := none }

/-- The initial store: w0 lives at address 1. -/
def store0 : Store := [(1, w0)]

/-- A freshly constructed UnitOfWork. -/
def uow0 : UnitOfWork := ⟨[]⟩

/-- Driver for the C1 scenario: register w0 as NEW, mark it CLEAN, then
mutate its public attribute name from "a" to "b". -/
def c1Final : Res (Store × UnitOfWork) :=
  match register_new store0 uow0 .widget 1 with
  | .error e => .error e
  | .ok (σ1, u1) =>
      match mark_clean σ1 u1 .widget 1 with
      | .error e => .error e
      | .ok (σ2, u2) => .ok (storeSetAttr σ2 1 "name" (.vstr "b"), u2)

/-- The observations of the C1 scenario: get_dirty over all classes,
get_clean over all classes, and the entity's derived state. -/
def c1Queries : Res (List Nat) × Res (List Nat) × Res (Option StateV) :=
  match c1Final with
  | .error e => (.error e, .error e, .error e)
  | .ok (σ3, u2) => (get_dirty σ3 u2 none, get_clean σ3 u2 none, entState σ3 1)

/-- Driver for the C7 scenario: register_clean w0 (attaching a CLEAN
record to the clone), then mutate the clone's public attribute name. -/
def c7Final : Res (Store × Nat) :=
  match register_clean store0 uow0 .widget 1 with
  | .error e => .error e
  | .ok (σ2, _, c) => .ok (storeSetAttr σ2 c "name" (.vstr "b"), c)

/-- The observations of the C7 scenario: the clone's derived state read
twice in a row, and the clone's stored tracking record. -/
def c7Queries : Res (Option StateV) × Res (Option StateV) × Res (Option TrackRec) :=
  match c7Final with
  | .error e => (.error e, .error e, .error e)
  | .ok (σ3, c) =>
      (entState σ3 c, entState σ3 c,
       match readObj σ3 c with
       | none => .error (.valueError "dead weak reference")
       | some o => .ok o.everest)

/-- The observations of the C4 scenario after register_clean(widget, w0):
whether the original is in the widget tracked set, whether the original
carries a record, whether the clone carries a record, and whether the
clone is absent from every tracked set. -/
def c4Facts : Res (Bool × Bool × Bool × Bool) :=
  match register_clean store0 uow0 .widget 1 with
  | .error e => .error e
  | .ok (σ2, u2, c) =>
      .ok (decide (1 ∈ mapLookup u2.entity_set_map .widget),
           (match readObj σ2 1 with
            | some o => o.everest.isSome
            | none => true),
           (match readObj σ2 c with
            | some o => o.everest.isSome
            | none => false),
           decide (∀ p ∈ u2.entity_set_map, c ∉ p.2))

/-- An entity of the concrete class widget with id 1. -/
def wBase : Obj := { cls := .widget, dict := [("id", .vnat 1)], everest := none }

/-- An entity of the concrete class widgetSub (a subclass of widget)
with the same id 1. -/
def wSub : Obj := { cls := .widgetSub, dict := [("id", .vnat 1)], everest := none }

/-- A tracking record whose stored state is CLEAN with the baseline hash
the code always computes; exactly the record register_clean attaches to
a clone. -/
def cleanRec : TrackRec :=
  { objRef := 1, state := some .CLEAN, lastStateHash := pyHash "" }

/- Helper lemmas about the embedding. -/

/-- The state string of every tracking record is empty: get_state_data
filters the manager's own all-underscore __dict__ down to nothing. -/
theorem gss_empty (r : TrackRec) : get_state_string r = "" := rfl

/-- A record whose baseline hash agrees with its recomputed state-string
hash derives exactly its stored state. -/
theorem derived_of_stored (r : TrackRec) (f : StateV) (hs : r.state = some f)
    (hh : r.lastStateHash = pyHash (get_state_string r)) :
    ESM_get_state r = some f := by
  unfold ESM_get_state
  rw [hs]
  by_cases hf : f = .CLEAN
  · subst hf
    simp [hh]
  · simp [hf]

theorem readObj_writeObj_self (σ : Store) (a : Nat) (o : Obj) :
    readObj (writeObj σ a o) a = some o := by
  induction σ with
  | nil => simp [writeObj, readObj]
  | cons hd tl ih =>
      obtain ⟨b, p⟩ := hd
      by_cases hab : a = b
      · subst hab
        simp [writeObj, readObj]
      · simp [writeObj, readObj, hab, ih]

theorem readObj_writeObj_ne (σ : Store) (a b : Nat) (o : Obj) (h : b ≠ a) :
    readObj (writeObj σ a o) b = readObj σ b := by
  induction σ with
  | nil => simp [writeObj, readObj, h]
  | cons hd tl ih =>
      obtain ⟨k, p⟩ := hd
      by_cases hak : a = k
      · subst hak
        simp [writeObj, readObj, h]
      · by_cases hbk : b = k
        · subst hbk
          simp [writeObj, readObj, hak]
        · simp [writeObj, readObj, hak, hbk, ih]

theorem mem_keys_of_readObj {σ : Store} {b : Nat} {o : Obj}
    (h : readObj σ b = some o) : b ∈ σ.map (fun e => e.1) := by
  induction σ with
  | nil => simp [readObj] at h
  | cons hd tl ih =>
      obtain ⟨k, p⟩ := hd
      by_cases hbk : b = k
      · simp [hbk]
      · simp [readObj, hbk] at h
        simp [ih h]

theorem le_foldr_max {l : List Nat} {x : Nat} (h : x ∈ l) :
    x ≤ l.foldr max 0 := by
  induction l with
  | nil => simp at h
  | cons hd tl ih =>
      rcases List.mem_cons.mp h with h1 | h1
      · subst h1
        exact Nat.le_max_left _ _
      · exact Nat.le_trans (ih h1) (Nat.le_max_right _ _)

theorem ne_freshAddr {σ : Store} {a : Nat} {o : Obj}
    (h : readObj σ a = some o) : a ≠ freshAddr σ := by
  intro hcontra
  have h1 := le_foldr_max (mem_keys_of_readObj h)
  rw [hcontra] at h1
  unfold freshAddr at h1
  omega

theorem readObj_freshAddr (σ : Store) : readObj σ (freshAddr σ) = none := by
  cases h : readObj σ (freshAddr σ) with
  | none => rfl
  | some o => exact absurd rfl (ne_freshAddr h)

theorem mapLookup_mapInsert_self (m : List (EClass × List Nat)) (T : EClass)
    (l : List Nat) : mapLookup (mapInsert m T l) T = l := by
  induction m with
  | nil => simp [mapInsert, mapLookup]
  | cons hd tl ih =>
      obtain ⟨k, s⟩ := hd
      by_cases hk : k = T
      · subst hk
        simp [mapInsert, mapLookup]
      · simp [mapInsert, mapLookup, hk, ih]

theorem mapLookup_mapInsert_ne (m : List (EClass × List Nat)) (T k : EClass)
    (l : List Nat) (h : k ≠ T) :
    mapLookup (mapInsert m T l) k = mapLookup m k := by
  induction m with
  | nil => simp [mapInsert, mapLookup, Ne.symm h]
  | cons hd tl ih =>
      obtain ⟨k0, s⟩ := hd
      by_cases hk0 : k0 = T
      · subst hk0
        simp [mapInsert, mapLookup, Ne.symm h]
      · simp [mapInsert, mapLookup, hk0, ih]

theorem mem_entries_mapInsert {m : List (EClass × List Nat)} {T : EClass}
    {l : List Nat} {p : EClass × List Nat} (h : p ∈ mapInsert m T l) :
    p = (T, l) ∨ p ∈ m := by
  induction m with
  | nil =>
      simp [mapInsert] at h
      exact Or.inl h
  | cons hd tl ih =>
      obtain ⟨k, s⟩ := hd
      by_cases hk : k = T
      · subst hk
        simp [mapInsert] at h
        rcases h with h1 | h1
        · exact Or.inl h1
        · exact Or.inr (List.mem_cons_of_mem _ h1)
      · simp [mapInsert, hk] at h
        rcases h with h1 | h1
        · exact Or.inr (by simp [h1])
        · rcases ih h1 with h2 | h2
          · exact Or.inl h2
          · exact Or.inr (List.mem_cons_of_mem _ h2)

theorem key_mem_mapInsert (m : List (EClass × List Nat)) (T : EClass)
    (l : List Nat) : T ∈ (mapInsert m T l).map (fun e => e.1) := by
  induction m with
  | nil => simp [mapInsert]
  | cons hd tl ih =>
      obtain ⟨k, s⟩ := hd
      by_cases hk : k = T
      · subst hk
        simp [mapInsert]
      · simp [mapInsert, hk, ih]

theorem mem_mapLookup_entries {m : List (EClass × List Nat)} {T : EClass}
    {b : Nat} (h : b ∈ mapLookup m T) : ∃ l, (T, l) ∈ m ∧ b ∈ l := by
  induction m with
  | nil => simp [mapLookup] at h
  | cons hd tl ih =>
      obtain ⟨k, s⟩ := hd
      by_cases hk : k = T
      · subst hk
        simp [mapLookup] at h
        exact ⟨s, by simp, h⟩
      · simp [mapLookup, hk] at h
        obtain ⟨l, h1, h2⟩ := ih h
        exact ⟨l, List.mem_cons_of_mem _ h1, h2⟩

theorem mem_uowAdd_self (u : UnitOfWork) (T : EClass) (a : Nat) :
    a ∈ mapLookup (uowAdd u T a).entity_set_map T := by
  unfold uowAdd
  rw [mapLookup_mapInsert_self]
  by_cases h : a ∈ mapLookup u.entity_set_map T
  · simp [h]
  · simp [h]

theorem mem_mapLookup_uowAdd {u : UnitOfWork} {T k : EClass} {a b : Nat}
    (h : b ∈ mapLookup (uowAdd u T a).entity_set_map k) :
    b ∈ mapLookup u.entity_set_map k ∨ b = a := by
  unfold uowAdd at h
  by_cases hk : k = T
  · subst hk
    rw [mapLookup_mapInsert_self] at h
    by_cases hm : a ∈ mapLookup u.entity_set_map k
    · simp [hm] at h
      exact Or.inl h
    · simp [hm] at h
      rcases h with h1 | h1
      · exact Or.inl h1
      · exact Or.inr h1
  · rw [mapLookup_mapInsert_ne _ _ _ _ hk] at h
    exact Or.inl h

/-- ESM_init always records the hash of the empty state string. -/
theorem esmInit_eq (a : Nat) :
    ESM_init a = { objRef := a, state := none, lastStateHash := pyHash "" } :=
  rfl

/-- Tracking an entity with a state reachable from the unset marker
attaches a fresh record holding that state and the constant baseline. -/
theorem track_ok (σ : Store) (a : Nat) (o : Obj) (s : StateV)
    (ho : readObj σ a = some o) (hs : (none, s) ∈ allowed_transitions) :
    ESM_track σ a s =
      .ok (writeObj σ a
        { o with
          everest := some ({ objRef := a, state := some s,
                             lastStateHash := pyHash "" }) }) := by
  unfold ESM_track
  rw [ho, esmInit_eq]
  unfold ESM_set_state
  have hg : ESM_get_state
      { objRef := a, state := none, lastStateHash := pyHash "" } = none := rfl
  rw [hg, if_pos hs]

/-- Full characterization of register_clean on a live entity: the clone
is allocated at the fresh address, filled with the public attributes,
tracked CLEAN, and the original is what gets added to the map. -/
theorem register_clean_spec (σ : Store) (u : UnitOfWork) (T : EClass)
    (a : Nat) (o : Obj) (ho : readObj σ a = some o) :
    register_clean σ u T a =
      .ok (writeObj (writeObj σ (freshAddr σ) (cloneObj o)) (freshAddr σ)
             { cloneObj o with
               everest := some ({ objRef := freshAddr σ, state := some .CLEAN,
                                  lastStateHash := pyHash "" }) },
           uowAdd u T a, freshAddr σ) := by
  simp only [register_clean, ESM_clone, ho]
  rw [track_ok _ _ _ _ (readObj_writeObj_self σ (freshAddr σ) (cloneObj o))
        (by decide)]

/-- Full characterization of register_new on a live, untracked entity. -/
theorem register_new_spec (σ : Store) (u : UnitOfWork) (T : EClass)
    (a : Nat) (o : Obj) (ho : readObj σ a = some o) (he : o.everest = none) :
    register_new σ u T a =
      .ok (writeObj σ a
             { o with
               everest := some ({ objRef := a, state := some .NEW,
                                  lastStateHash := pyHash "" }) },
           uowAdd u T a) := by
  simp only [register_new, ho, he, Option.isSome_none, Bool.false_eq_true,
    if_false]
  rw [track_ok _ _ _ _ ho (by decide)]

/-- Keys of an attribute dictionary. -/
def dictKeys (d : AttrDict) : List String := d.map (fun p => p.1)

theorem setAttr_not_mem (d : AttrDict) (n : String) (v : Value)
    (h : n ∉ dictKeys d) : setAttr d n v = d ++ [(n, v)] := by
  induction d with
  | nil => rfl
  | cons hd tl ih =>
      obtain ⟨m, w⟩ := hd
      simp [dictKeys] at h
      simp [setAttr, Ne.symm h.1, ih (by simp [dictKeys, h.2])]

theorem set_state_data_app (data : AttrDict) :
    ∀ acc : AttrDict, (dictKeys data).Nodup →
      (∀ k ∈ dictKeys data, k ∉ dictKeys acc) →
      set_state_data acc data = acc ++ data := by
  induction data with
  | nil =>
      intro acc _ _
      simp [set_state_data]
  | cons hd tl ih =>
      intro acc h hdis
      obtain ⟨n, v⟩ := hd
      have hkeys : dictKeys ((n, v) :: tl) = n :: dictKeys tl := rfl
      rw [hkeys] at h hdis
      have hnodup := List.nodup_cons.mp h
      have step : set_state_data acc ((n, v) :: tl) =
          set_state_data (setAttr acc n v) tl := rfl
      have hn_acc : n ∉ dictKeys acc := hdis n (List.mem_cons_self _ _)
      rw [step, setAttr_not_mem acc n v hn_acc]
      rw [ih (acc ++ [(n, v)]) hnodup.2 ?_]
      · simp
      · intro k hk
        have hkeys2 : dictKeys (acc ++ [(n, v)]) = dictKeys acc ++ [n] := by
          simp [dictKeys]
        rw [hkeys2]
        intro hmem
        rcases List.mem_append.mp hmem with hm | hm
        · exact hdis k (List.mem_cons_of_mem _ hk) hm
        · have hkn : k = n := by simpa using hm
          subst hkn
          exact hnodup.1 hk

theorem nodup_keys_get_state_data {d : AttrDict}
    (h : (dictKeys d).Nodup) : (dictKeys (get_state_data d)).Nodup := by
  have hsub : List.Sublist (dictKeys (get_state_data d)) (dictKeys d) :=
    List.Sublist.map _ (List.filter_sublist d)
  exact List.Nodup.sublist hsub h

theorem lookup_get_state_data (d : AttrDict) (n : String)
    (h : isPublicName n = true) :
    lookupAttr (get_state_data d) n = lookupAttr d n := by
  induction d with
  | nil => rfl
  | cons hd tl ih =>
      obtain ⟨m, v⟩ := hd
      by_cases hmn : m = n
      · subst hmn
        simp [get_state_data, List.filter, h, lookupAttr]
      · cases hp : isPublicName m with
        | true =>
            simp [get_state_data, List.filter, hp, lookupAttr, hmn] at ih ⊢
            exact ih
        | false =>
            simp [get_state_data, List.filter, hp, lookupAttr, hmn] at ih ⊢
            exact ih

/-- Number of times an address occurs in a tracked set. -/
def countOcc (a : Nat) (l : List Nat) : Nat :=
  (l.filter (fun b => b = a)).length

theorem countOcc_append (a : Nat) (l1 l2 : List Nat) :
    countOcc a (l1 ++ l2) = countOcc a l1 + countOcc a l2 := by
  simp [countOcc, List.filter_append]

theorem countOcc_eq_zero {a : Nat} {l : List Nat} (h : a ∉ l) :
    countOcc a l = 0 := by
  induction l with
  | nil => rfl
  | cons hd tl ih =>
      simp at h
      simp [countOcc, List.filter, Ne.symm h.1] at ih ⊢
      simpa [countOcc] using ih h.2

/-- Claim C1 (code bug): the spec says mutating a public attribute of a
CLEAN-tracked entity makes the next get_state/get_dirty classify it as
DIRTY.  The code cannot do this: __get_state_string passes the state
manager itself, not the tracked entity, to get_state_data, and every
attribute of the manager is name-mangled private, so the fingerprint is
the hash of the empty string for every record (first conjunct).  In the
scenario (register NEW, mark CLEAN, mutate the public attribute name),
get_dirty yields nothing, get_clean still yields the entity and its
derived state stays CLEAN, contradicting the claim. -/
theorem C1_dirty_detection_lost :
    (∀ r : TrackRec, get_state_string r = "") ∧
    c1Queries = (.ok [], .ok [1], .ok (some .CLEAN)) :=
  ⟨fun _ => rfl, by decide⟩

/-- Claim C7 (code bug): the spec's premise — a stored-CLEAN record
whose fingerprint has diverged after a public-attribute mutation — is
unreachable: after register_clean and a mutation of the clone's public
attribute name, the derived state is still CLEAN (not the DIRTY the
claim derives), reads are repeatable, and the stored record is exactly
the unchanged CLEAN record with the constant baseline hash. -/
theorem C7_get_state_never_derives_dirty :
    c7Queries = (.ok (some .CLEAN), .ok (some .CLEAN),
      .ok (some { objRef := 2, state := some .CLEAN,
                  lastStateHash := pyHash "" })) := by
  decide

/-- Claim C4 counterexample: after register_clean(widget, w0) the
original entity is registered in the widget tracked set yet carries no
tracking record, while the clone carries a record yet is a member of no
tracked set — the claimed if-and-only-if fails in both directions at
this concrete input. -/
theorem C4_invariant_counterexample :
    c4Facts = .ok (true, false, true, true) := by
  decide

/-- Claim C5 counterexample: a widget with id 1 compares equal to a
widgetSub with id 1 (Entity.__eq__ uses isinstance, and widgetSub is a
subclass of widget), although the two concrete types differ — refuting
the claimed only-if direction. -/
theorem C5_same_id_subclass_counterexample :
    entityEq wBase wSub = true ∧ wBase.cls ≠ wSub.cls := by
  decide

/-- Claim C8 counterexample: on a tracked entity whose record is stored
CLEAN (exactly the record register_clean attaches to a clone),
reset_state raises ValueError because it assigns CLEAN through the
validating state property and CLEAN -> CLEAN is not an allowed
transition; it does not return CLEAN from the following get_state. -/
theorem C8_reset_on_clean_counterexample :
    ESM_reset_state cleanRec =
      .error (.valueError "Invalid state transition CLEAN -> CLEAN.") := by
  decide

/-- The six transitions among the four named states that the claim lists
as the allowed ones (a definition following the claim's words, to be
compared against the source's allowed_transitions table). -/
def claimedTransitions : List (StateV × StateV) :=
  [(.NEW, .CLEAN), (.NEW, .DELETED), (.CLEAN, .DIRTY), (.CLEAN, .DELETED),
   (.DIRTY, .CLEAN), (.DIRTY, .DELETED)]

/-- Claim C2 (confirmed): on a tracker whose stored state is one of the
four named states and whose baseline hash is the one the code computes
(true of every reachable tracker), set_state succeeds exactly for the
six listed transitions, and every other pair among the sixteen fails
with the invalid-transition ValueError rendering the attempted pair —
in particular every transition out of DELETED fails. -/
theorem C2_transition_table (r : TrackRec) (f t : StateV)
    (hs : r.state = some f)
    (hh : r.lastStateHash = pyHash (get_state_string r)) :
    ((∃ r1, ESM_set_state r t = .ok r1) ↔ (f, t) ∈ claimedTransitions) ∧
    ((f, t) ∉ claimedTransitions →
      ESM_set_state r t =
        .error (.valueError (invalidTransitionMsg (some f) t))) := by
  have hd : ESM_get_state r = some f := derived_of_stored r f hs hh
  unfold ESM_set_state
  rw [hd, hs]
  cases f <;> cases t <;>
    simp [allowed_transitions, claimedTransitions, invalidTransitionMsg]

/-- Witness for C2: a DELETED tracker refuses the transition to CLEAN
with the rendered pair, while a NEW tracker accepts it. -/
theorem C2_transition_table_witness :
    ESM_set_state ({ objRef := 1, state := some .DELETED,
                     lastStateHash := pyHash "" }) .CLEAN =
      .error (.valueError (invalidTransitionMsg (some .DELETED) .CLEAN)) ∧
    (∃ r1, ESM_set_state ({ objRef := 1, state := some .NEW,
                            lastStateHash := pyHash "" }) .CLEAN = .ok r1) :=
  ⟨(C2_transition_table _ .DELETED .CLEAN rfl rfl).2 (by decide),
   (C2_transition_table _ .NEW .CLEAN rfl rfl).1.mpr (by decide)⟩

/-- Claim C3 (confirmed): register_clean on a live entity returns a
clone at a distinct address, of the same concrete class, with every
public attribute (hence the id) looking up to the same value, carrying a
fresh tracking record whose stored and derived state are CLEAN, while
the original address is what is added to the type-T tracked set. -/
theorem C3_register_clean_clone (σ : Store) (u : UnitOfWork) (T : EClass)
    (a : Nat) (o : Obj) (ho : readObj σ a = some o)
    (hnd : (dictKeys o.dict).Nodup) :
    ∃ σ2 c oc r,
      register_clean σ u T a = .ok (σ2, uowAdd u T a, c) ∧
      c ≠ a ∧
      readObj σ2 c = some oc ∧
      oc.cls = o.cls ∧
      (∀ n, isPublicName n = true →
        lookupAttr oc.dict n = lookupAttr o.dict n) ∧
      getId oc = getId o ∧
      oc.everest = some r ∧
      r.state = some .CLEAN ∧
      ESM_get_state r = some .CLEAN ∧
      a ∈ mapLookup (uowAdd u T a).entity_set_map T := by
  have hdict : (cloneObj o).dict = get_state_data o.dict := by
    have h1 := set_state_data_app (get_state_data o.dict) []
      (nodup_keys_get_state_data hnd) (by intro k _ hk; simp [dictKeys] at hk)
    simpa [cloneObj] using h1
  refine ⟨_, freshAddr σ,
    { cloneObj o with
      everest := some ({ objRef := freshAddr σ, state := some .CLEAN,
                         lastStateHash := pyHash "" }) }, _,
    register_clean_spec σ u T a o ho,
    Ne.symm (ne_freshAddr ho),
    readObj_writeObj_self _ _ _,
    rfl, ?_, ?_, rfl, rfl, ?_, mem_uowAdd_self u T a⟩
  · intro n hn
    have h2 : ({ cloneObj o with
        everest := some ({ objRef := freshAddr σ, state := some .CLEAN,
                           lastStateHash := pyHash "" }) } : Obj).dict =
        get_state_data o.dict := hdict
    rw [h2]
    exact lookup_get_state_data o.dict n hn
  · unfold getId
    rw [show ({ cloneObj o with
        everest := some ({ objRef := freshAddr σ, state := some .CLEAN,
                           lastStateHash := pyHash "" }) } : Obj).dict =
        get_state_data o.dict from hdict]
    rw [lookup_get_state_data o.dict "id" (by decide)]
  · unfold ESM_get_state
    rw [gss_empty]
    simp

/-- Witness for C3 at the concrete scenario entity. -/
theorem C3_register_clean_clone_witness :
    ∃ σ2 c oc r,
      register_clean store0 uow0 .widget 1 =
        .ok (σ2, uowAdd uow0 .widget 1, c) ∧
      c ≠ 1 ∧
      readObj σ2 c = some oc ∧
      oc.cls = w0.cls ∧
      (∀ n, isPublicName n = true →
        lookupAttr oc.dict n = lookupAttr w0.dict n) ∧
      getId oc = getId w0 ∧
      oc.everest = some r ∧
      r.state = some .CLEAN ∧
      ESM_get_state r = some .CLEAN ∧
      1 ∈ mapLookup (uowAdd uow0 .widget 1).entity_set_map .widget :=
  C3_register_clean_clone store0 uow0 .widget 1 w0 rfl (by decide)

/-- isinstance of an instance against its own class always holds. -/
theorem isSubclass_refl (c : EClass) : isSubclass c c = true := by
  cases c <;> rfl

/-- Claim C5 (corrected, amendment): for all entities a and b, a == b
holds if and only if b is an instance of a's class — a's class itself or
any subclass of it — and the ids are equal.  In particular two instances
of the same concrete type with the same id are equal, an instance of a
proper subclass with the same id is also equal to the superclass
instance despite the differing concrete types, and an instance of a
type that is neither a's type nor a subclass of it is never equal. -/
theorem C5_entity_eq_amended :
    (∀ a b : Obj, entityEq a b = true ↔
      (isSubclass b.cls a.cls = true ∧ getId a = getId b)) ∧
    (∀ a b : Obj, a.cls = b.cls → getId a = getId b → entityEq a b = true) ∧
    (∀ a b : Obj, isSubclass b.cls a.cls = false → entityEq a b = false) := by
  refine ⟨?_, ?_, ?_⟩
  · intro a b
    constructor
    · intro h
      simp [entityEq] at h
      exact h
    · rintro ⟨h1, h2⟩
      simp [entityEq, h1, h2]
  · intro a b hcls hid
    simp [entityEq, hcls, hid, isSubclass_refl]
  · intro a b h
    simp [entityEq, h]

/-- Witness for C5's amendment: the biconditional's if-direction applied
at the proper-subclass pair widget/widgetSub with equal ids yields
equality across distinct concrete types; same class and id are equal;
and a gadget is not equal to a widget of the same id. -/
theorem C5_entity_eq_amended_witness :
    entityEq wBase wSub = true ∧
    entityEq wBase wBase = true ∧
    entityEq wBase
      ({ cls := .gadget, dict := [("id", .vnat 1)], everest := none }) =
        false :=
  ⟨(C5_entity_eq_amended.1 wBase wSub).mpr (by decide),
   C5_entity_eq_amended.2.1 wBase wBase rfl rfl,
   C5_entity_eq_amended.2.2 wBase _ (by decide)⟩

/-- Claim C6 (confirmed): once register_new has succeeded on a live
untracked entity that was not yet in the type-T set, a second
register_new on the same entity fails immediately with the
double-registration ValueError (returning no new state, hence no partial
mutation), and the type-T tracked set holds exactly one entry for it. -/
theorem C6_double_register (σ : Store) (u : UnitOfWork) (T : EClass)
    (a : Nat) (o : Obj) (σ1 : Store) (u1 : UnitOfWork)
    (ho : readObj σ a = some o) (he : o.everest = none)
    (h : register_new σ u T a = .ok (σ1, u1))
    (h0 : a ∉ mapLookup u.entity_set_map T) :
    register_new σ1 u1 T a =
      .error (.valueError
        "Trying to register a NEW entity that has already been registered!") ∧
    countOcc a (mapLookup u1.entity_set_map T) = 1 := by
  have hspec := register_new_spec σ u T a o ho he
  have heq := h.symm.trans hspec
  rw [Res.ok.injEq, Prod.mk.injEq] at heq
  obtain ⟨hσ1, hu1⟩ := heq
  subst hσ1
  subst hu1
  constructor
  · simp [register_new, readObj_writeObj_self]
  · unfold uowAdd
    rw [mapLookup_mapInsert_self, if_neg h0, countOcc_append,
      countOcc_eq_zero h0]
    simp [countOcc, List.filter]

/-- The scenario entity after register_new attached its NEW record. -/
def w0new : Obj :=
  { cls := .widget, dict := [("id", .vnat 7), ("name", .vstr "a")],
    everest := some ({ objRef := 1, state := some .NEW,
                       lastStateHash := pyHash "" }) }

/-- The store and unit of work after register_new in the scenario. -/
def store1 : Store := [(1, w0new)]

def uow1 : UnitOfWork := ⟨[(.widget, [1])]⟩

/-- Witness for C6 at the concrete scenario. -/
theorem C6_double_register_witness :
    register_new store1 uow1 .widget 1 =
      .error (.valueError
        "Trying to register a NEW entity that has already been registered!") ∧
    countOcc 1 (mapLookup uow1.entity_set_map .widget) = 1 :=
  C6_double_register store0 uow0 .widget 1 w0 store1 uow1 rfl rfl
    (by decide) (by decide)

/-- Claim C8 (corrected, amendment): reset_state assigns CLEAN through
the validating state property, so it succeeds exactly when the current
derived state may transition to CLEAN — unset, NEW or DIRTY — and then
the immediately following get_state returns CLEAN with the baseline
recomputed; on a tracker whose derived state is already CLEAN or is
DELETED it instead fails with the invalid-transition ValueError. -/
theorem C8_reset_amended (r : TrackRec) :
    ((ESM_get_state r = none ∨ ESM_get_state r = some .NEW ∨
        ESM_get_state r = some .DIRTY) →
      ∃ r1, ESM_reset_state r = .ok r1 ∧ ESM_get_state r1 = some .CLEAN) ∧
    ((ESM_get_state r = some .CLEAN ∨ ESM_get_state r = some .DELETED) →
      ESM_reset_state r =
        .error (.valueError (invalidTransitionMsg r.state .CLEAN))) := by
  constructor
  · intro h
    have hmem : (ESM_get_state r, StateV.CLEAN) ∈ allowed_transitions := by
      rcases h with h | h | h <;> rw [h] <;> decide
    unfold ESM_reset_state ESM_set_state
    rw [if_pos hmem]
    refine ⟨_, rfl, ?_⟩
    unfold ESM_get_state
    rw [gss_empty]
    simp [gss_empty]
  · intro h
    have hmem : (ESM_get_state r, StateV.CLEAN) ∉ allowed_transitions := by
      rcases h with h | h <;> rw [h] <;> decide
    unfold ESM_reset_state ESM_set_state
    rw [if_neg hmem]

/-- Witness for C8's amendment: a NEW tracker resets to CLEAN and then
reads CLEAN; the CLEAN tracker from the counterexample fails. -/
theorem C8_reset_amended_witness :
    (∃ r1, ESM_reset_state ({ objRef := 1, state := some .NEW,
                              lastStateHash := pyHash "" }) = .ok r1 ∧
       ESM_get_state r1 = some .CLEAN) ∧
    ESM_reset_state cleanRec =
      .error (.valueError (invalidTransitionMsg cleanRec.state .CLEAN)) :=
  ⟨(C8_reset_amended _).1 (by decide),
   (C8_reset_amended cleanRec).2 (by decide)⟩

/-- Claim C9 (confirmed): each of mark_clean, mark_dirty, mark_deleted
and unregister on a live entity that carries no tracking record fails
immediately with the corresponding unregistered-entity ValueError. -/
theorem C9_unregistered_errors (σ : Store) (u : UnitOfWork) (T : EClass)
    (a : Nat) (o : Obj) (ho : readObj σ a = some o) (he : o.everest = none) :
    mark_clean σ u T a =
      .error (.valueError "Trying to mark an unregistered entity as CLEAN!") ∧
    mark_dirty σ u T a =
      .error (.valueError "Trying to mark an unregistered entity as DIRTY!") ∧
    mark_deleted σ u T a =
      .error (.valueError
        "Trying to mark an unregistered entity as DELETED!") ∧
    unregister σ u T a =
      .error (.valueError
        "Trying to unregister an entity that has not been registered yet!") := by
  refine ⟨?_, ?_, ?_, ?_⟩ <;>
    simp [mark_clean, mark_dirty, mark_deleted, unregister, ho, he]

/-- Witness for C9 on the never-registered scenario entity. -/
theorem C9_unregistered_errors_witness :
    mark_clean store0 uow0 .widget 1 =
      .error (.valueError "Trying to mark an unregistered entity as CLEAN!") ∧
    mark_dirty store0 uow0 .widget 1 =
      .error (.valueError "Trying to mark an unregistered entity as DIRTY!") ∧
    mark_deleted store0 uow0 .widget 1 =
      .error (.valueError
        "Trying to mark an unregistered entity as DELETED!") ∧
    unregister store0 uow0 .widget 1 =
      .error (.valueError
        "Trying to unregister an entity that has not been registered yet!") :=
  C9_unregistered_errors store0 uow0 .widget 1 w0 rfl rfl

/-- If every member of a set resolves and carries a record, reading all
their states succeeds. -/
theorem iterStates_ok (σ : Store) (l : List Nat)
    (h : ∀ b ∈ l, ∃ o r, readObj σ b = some o ∧ o.everest = some r) :
    ∃ ps, iterStates σ l = .ok ps := by
  induction l with
  | nil => exact ⟨[], rfl⟩
  | cons hd tl ih =>
      obtain ⟨o, r, hro, hr⟩ := h hd (List.mem_cons_self _ _)
      obtain ⟨ps, hps⟩ := ih (fun b hb => h b (List.mem_cons_of_mem _ hb))
      exact ⟨(hd, ESM_get_state r) :: ps,
        by simp [iterStates, entState, hro, hr, hps]⟩

/-- If every member of a set resolves but some member carries no record,
reading the states raises an AttributeError. -/
theorem iterStates_attrError (σ : Store) (l : List Nat)
    (hres : ∀ b ∈ l, (readObj σ b).isSome = true)
    (hbad : ∃ b ∈ l, ∃ o, readObj σ b = some o ∧ o.everest = none) :
    ∃ m, iterStates σ l = .error (.attributeError m) := by
  induction l with
  | nil => simp at hbad
  | cons hd tl ih =>
      cases hh : readObj σ hd with
      | none =>
          have h1 := hres hd (List.mem_cons_self _ _)
          rw [hh] at h1
          simp at h1
      | some o =>
          cases hev : o.everest with
          | none =>
              exact ⟨"object has no attribute __everest__",
                by simp [iterStates, entState, hh, hev]⟩
          | some r =>
              have hbad2 : ∃ b ∈ tl, ∃ ob, readObj σ b = some ob ∧
                  ob.everest = none := by
                obtain ⟨b, hb, ob, hob, hobe⟩ := hbad
                rcases List.mem_cons.mp hb with h1 | h1
                · subst h1
                  rw [hh] at hob
                  injection hob with hoo
                  subst hoo
                  rw [hev] at hobe
                  exact absurd hobe (by simp)
                · exact ⟨b, h1, ob, hob, hobe⟩
              obtain ⟨m, hm⟩ :=
                ih (fun b hb => hres b (List.mem_cons_of_mem _ hb)) hbad2
              exact ⟨m, by simp [iterStates, entState, hh, hev, hm]⟩

/-- If every tracked entity under the traversed keys resolves but one of
them carries no record, the state-query loop raises an AttributeError. -/
theorem iterKeys_attrError (σ : Store) (u : UnitOfWork) (s : StateV)
    (ks : List EClass)
    (hres : ∀ k ∈ ks, ∀ b ∈ mapLookup u.entity_set_map k,
      (readObj σ b).isSome = true)
    (hbad : ∃ k ∈ ks, ∃ b ∈ mapLookup u.entity_set_map k,
      ∃ o, readObj σ b = some o ∧ o.everest = none) :
    ∃ m, iterKeys σ u s ks = .error (.attributeError m) := by
  induction ks with
  | nil => simp at hbad
  | cons k0 rest ih =>
      by_cases hb0 : ∃ b ∈ mapLookup u.entity_set_map k0,
          ∃ o, readObj σ b = some o ∧ o.everest = none
      · obtain ⟨m, hm⟩ := iterStates_attrError σ _
          (hres k0 (List.mem_cons_self _ _)) hb0
        exact ⟨m, by simp [iterKeys, hm]⟩
      · have hgood : ∀ b ∈ mapLookup u.entity_set_map k0,
            ∃ o r, readObj σ b = some o ∧ o.everest = some r := by
          intro b hb
          have h1 := hres k0 (List.mem_cons_self _ _) b hb
          cases hro : readObj σ b with
          | none =>
              rw [hro] at h1
              simp at h1
          | some o =>
              cases hev : o.everest with
              | none => exact absurd ⟨b, hb, o, hro, hev⟩ hb0
              | some r => exact ⟨o, r, rfl, hev⟩
        obtain ⟨ps, hps⟩ := iterStates_ok σ _ hgood
        have hbad2 : ∃ k ∈ rest, ∃ b ∈ mapLookup u.entity_set_map k,
            ∃ o, readObj σ b = some o ∧ o.everest = none := by
          obtain ⟨k, hk, hkbad⟩ := hbad
          rcases List.mem_cons.mp hk with h1 | h1
          · subst h1
            exact absurd hkbad hb0
          · exact ⟨k, h1, hkbad⟩
        obtain ⟨m, hm⟩ := ih (fun k hk => hres k (List.mem_cons_of_mem _ hk))
          hbad2
        exact ⟨m, by simp [iterKeys, hps, hm]⟩

/-- The analogue of iterKeys_attrError for the (class, entity, state)
iterator loop. -/
theorem iterAll_attrError (σ : Store) (u : UnitOfWork) (ks : List EClass)
    (hres : ∀ k ∈ ks, ∀ b ∈ mapLookup u.entity_set_map k,
      (readObj σ b).isSome = true)
    (hbad : ∃ k ∈ ks, ∃ b ∈ mapLookup u.entity_set_map k,
      ∃ o, readObj σ b = some o ∧ o.everest = none) :
    ∃ m, iterAll σ u ks = .error (.attributeError m) := by
  induction ks with
  | nil => simp at hbad
  | cons k0 rest ih =>
      by_cases hb0 : ∃ b ∈ mapLookup u.entity_set_map k0,
          ∃ o, readObj σ b = some o ∧ o.everest = none
      · obtain ⟨m, hm⟩ := iterStates_attrError σ _
          (hres k0 (List.mem_cons_self _ _)) hb0
        exact ⟨m, by simp [iterAll, hm]⟩
      · have hgood : ∀ b ∈ mapLookup u.entity_set_map k0,
            ∃ o r, readObj σ b = some o ∧ o.everest = some r := by
          intro b hb
          have h1 := hres k0 (List.mem_cons_self _ _) b hb
          cases hro : readObj σ b with
          | none =>
              rw [hro] at h1
              simp at h1
          | some o =>
              cases hev : o.everest with
              | none => exact absurd ⟨b, hb, o, hro, hev⟩ hb0
              | some r => exact ⟨o, r, rfl, hev⟩
        obtain ⟨ps, hps⟩ := iterStates_ok σ _ hgood
        have hbad2 : ∃ k ∈ rest, ∃ b ∈ mapLookup u.entity_set_map k,
            ∃ o, readObj σ b = some o ∧ o.everest = none := by
          obtain ⟨k, hk, hkbad⟩ := hbad
          rcases List.mem_cons.mp hk with h1 | h1
          · subst h1
            exact absurd hkbad hb0
          · exact ⟨k, h1, hkbad⟩
        obtain ⟨m, hm⟩ := ih (fun k hk => hres k (List.mem_cons_of_mem _ hk))
          hbad2
        exact ⟨m, by simp [iterAll, hps, hm]⟩

/-- Claim C4 (corrected, amendment): register_new does couple a record
to a registration for its entity, but register_clean registers the
original without attaching a record to it while the record-carrying
clone is added to no tracked set, and reset simply empties the
class-to-set map, leaving whatever records exist attached; so the
claimed if-and-only-if between carrying a record and being registered
does not hold. -/
theorem C4_tracking_registration_amended :
    (∀ σ u T a σ1 u1, register_new σ u T a = .ok (σ1, u1) →
      (∃ o1 r, readObj σ1 a = some o1 ∧ o1.everest = some r) ∧
      a ∈ mapLookup u1.entity_set_map T) ∧
    (∀ σ u T a o σ2 u2 c, readObj σ a = some o →
      register_clean σ u T a = .ok (σ2, u2, c) →
      readObj σ2 a = some o ∧
      a ∈ mapLookup u2.entity_set_map T ∧
      (∃ oc r, readObj σ2 c = some oc ∧ oc.everest = some r) ∧
      ((∀ p ∈ u.entity_set_map, c ∉ p.2) →
        ∀ p ∈ u2.entity_set_map, c ∉ p.2)) ∧
    (∀ u T, mapLookup (uow_reset u).entity_set_map T = []) := by
  refine ⟨?_, ?_, ?_⟩
  · intro σ u T a σ1 u1 h
    cases hro : readObj σ a with
    | none =>
        rw [show register_new σ u T a = .error
          (.valueError "dead weak reference") by simp [register_new, hro]]
          at h
        exact absurd h (by simp)
    | some o =>
        cases hev : o.everest with
        | some r0 =>
            rw [show register_new σ u T a = .error (.valueError
              "Trying to register a NEW entity that has already been registered!")
              by simp [register_new, hro, hev]] at h
            exact absurd h (by simp)
        | none =>
            have hspec := register_new_spec σ u T a o hro hev
            have heq := h.symm.trans hspec
            rw [Res.ok.injEq, Prod.mk.injEq] at heq
            obtain ⟨hσ1, hu1⟩ := heq
            subst hσ1
            subst hu1
            refine ⟨⟨_, _, readObj_writeObj_self _ _ _, rfl⟩,
              mem_uowAdd_self u T a⟩
  · intro σ u T a o σ2 u2 c ho hr
    have hspec := register_clean_spec σ u T a o ho
    have heq := hr.symm.trans hspec
    rw [Res.ok.injEq, Prod.mk.injEq, Prod.mk.injEq] at heq
    obtain ⟨hσ2, hu2, hc⟩ := heq
    subst hσ2
    subst hu2
    subst hc
    have haf : a ≠ freshAddr σ := ne_freshAddr ho
    refine ⟨?_, mem_uowAdd_self u T a,
      ⟨_, _, readObj_writeObj_self _ _ _, rfl⟩, ?_⟩
    · rw [readObj_writeObj_ne _ _ _ _ haf, readObj_writeObj_ne _ _ _ _ haf]
      exact ho
    · intro hcu p hp
      rcases mem_entries_mapInsert hp with h1 | h1
      · subst h1
        intro hcmem
        have hcs : freshAddr σ ∈
            (if (a : Nat) ∈ mapLookup u.entity_set_map T then
              mapLookup u.entity_set_map T
            else mapLookup u.entity_set_map T ++ [a]) := hcmem
        by_cases ha : (a : Nat) ∈ mapLookup u.entity_set_map T
        · rw [if_pos ha] at hcs
          obtain ⟨l, hl, hcl⟩ := mem_mapLookup_entries hcs
          exact hcu (T, l) hl hcl
        · rw [if_neg ha] at hcs
          rcases List.mem_append.mp hcs with hm | hm
          · obtain ⟨l, hl, hcl⟩ := mem_mapLookup_entries hm
            exact hcu (T, l) hl hcl
          · have hca : (freshAddr σ : Nat) = a := by simpa using hm
            exact haf hca.symm
      · exact hcu p h1
  · intro u T
    rfl

/-- The scenario clone as register_clean leaves it: same class and
public attributes as w0, CLEAN tracking record attached. -/
def w0clone : Obj :=
  { cls := .widget, dict := [("id", .vnat 7), ("name", .vstr "a")],
    everest := some ({ objRef := 2, state := some .CLEAN,
                       lastStateHash := pyHash "" }) }

/-- The store after register_clean in the scenario: the untouched
original at address 1 and the tracked clone at address 2. -/
def store2 : Store := [(1, w0), (2, w0clone)]

/-- Witness for C4's amendment at the concrete scenario. -/
theorem C4_tracking_registration_amended_witness :
    ((∃ o1 r, readObj store1 1 = some o1 ∧ o1.everest = some r) ∧
      1 ∈ mapLookup uow1.entity_set_map .widget) ∧
    (readObj store2 1 = some w0 ∧
      1 ∈ mapLookup uow1.entity_set_map .widget ∧
      (∃ oc r, readObj store2 2 = some oc ∧ oc.everest = some r) ∧
      ((∀ p ∈ uow0.entity_set_map, 2 ∉ p.2) →
        ∀ p ∈ uow1.entity_set_map, 2 ∉ p.2)) ∧
    mapLookup (uow_reset uow1).entity_set_map .widget = [] :=
  ⟨C4_tracking_registration_amended.1 store0 uow0 .widget 1 store1 uow1
     (by decide),
   C4_tracking_registration_amended.2.1 store0 uow0 .widget 1 w0 store2 uow1 2
     rfl (by decide),
   C4_tracking_registration_amended.2.2 uow1 .widget⟩

/-- Claim C10 (confirmed): when an entity was registered only via
register_clean — so the registered original carries no tracking handle,
the handle sitting on the returned clone — every state query over all
classes or over the registering class (get_clean, get_new, get_dirty and
get_deleted all force the same loop at their respective state), and the
iterator() traversal, fail with an AttributeError instead of yielding a
state, provided every previously tracked entity is live. -/
theorem C10_handleless_original_breaks_queries (σ : Store) (u : UnitOfWork)
    (T : EClass) (a : Nat) (o : Obj) (σ2 : Store) (u2 : UnitOfWork) (c : Nat)
    (ho : readObj σ a = some o) (he : o.everest = none)
    (hwf : ∀ k, ∀ b ∈ mapLookup u.entity_set_map k,
      (readObj σ b).isSome = true)
    (hr : register_clean σ u T a = .ok (σ2, u2, c)) :
    (∀ s, ∃ m, object_iterator σ2 u2 s none = .error (.attributeError m)) ∧
    (∀ s, ∃ m, object_iterator σ2 u2 s (some T) =
      .error (.attributeError m)) ∧
    (∃ m, uow_iterator σ2 u2 = .error (.attributeError m)) := by
  have hspec := register_clean_spec σ u T a o ho
  have heq := hr.symm.trans hspec
  rw [Res.ok.injEq, Prod.mk.injEq, Prod.mk.injEq] at heq
  obtain ⟨hσ2, hu2, hc⟩ := heq
  subst hσ2
  subst hu2
  subst hc
  have haf : a ≠ freshAddr σ := ne_freshAddr ho
  have h2a : readObj
      (writeObj (writeObj σ (freshAddr σ) (cloneObj o)) (freshAddr σ)
        { cloneObj o with
          everest := some ({ objRef := freshAddr σ, state := some .CLEAN,
                             lastStateHash := pyHash "" }) }) a = some o := by
    rw [readObj_writeObj_ne _ _ _ _ haf, readObj_writeObj_ne _ _ _ _ haf]
    exact ho
  have hres2 : ∀ k, ∀ b ∈ mapLookup (uowAdd u T a).entity_set_map k,
      (readObj (writeObj (writeObj σ (freshAddr σ) (cloneObj o)) (freshAddr σ)
        { cloneObj o with
          everest := some ({ objRef := freshAddr σ, state := some .CLEAN,
                             lastStateHash := pyHash "" }) }) b).isSome
        = true := by
    intro k b hb
    rcases mem_mapLookup_uowAdd hb with h1 | h1
    · by_cases hbf : b = freshAddr σ
      · subst hbf
        rw [readObj_writeObj_self]
        rfl
      · rw [readObj_writeObj_ne _ _ _ _ hbf, readObj_writeObj_ne _ _ _ _ hbf]
        exact hwf k b h1
    · subst h1
      rw [h2a]
      rfl
  have hbadT : ∃ b ∈ mapLookup (uowAdd u T a).entity_set_map T,
      ∃ ob, readObj (writeObj (writeObj σ (freshAddr σ) (cloneObj o))
        (freshAddr σ)
        { cloneObj o with
          everest := some ({ objRef := freshAddr σ, state := some .CLEAN,
                             lastStateHash := pyHash "" }) }) b = some ob ∧
        ob.everest = none :=
    ⟨a, mem_uowAdd_self u T a, o, h2a, he⟩
  have hTkey : T ∈ (uowAdd u T a).entity_set_map.map (fun e => e.1) :=
    key_mem_mapInsert _ _ _
  refine ⟨?_, ?_, ?_⟩
  · intro s
    exact iterKeys_attrError _ _ s _ (fun k _ => hres2 k) ⟨T, hTkey, hbadT⟩
  · intro s
    exact iterKeys_attrError _ _ s _ (fun k _ => hres2 k)
      ⟨T, List.mem_singleton.mpr rfl, hbadT⟩
  · exact iterAll_attrError _ _ _ (fun k _ => hres2 k) ⟨T, hTkey, hbadT⟩

/-- Witness for C10 at the concrete scenario: with the original at 1
registered by register_clean and handleless, get_dirty over all classes,
get_clean restricted to widget, and iterator() all raise. -/
theorem C10_handleless_original_breaks_queries_witness :
    (∃ m, get_dirty store2 uow1 none = .error (.attributeError m)) ∧
    (∃ m, get_clean store2 uow1 (some .widget) =
      .error (.attributeError m)) ∧
    (∃ m, uow_iterator store2 uow1 = .error (.attributeError m)) :=
  ⟨(C10_handleless_original_breaks_queries store0 uow0 .widget 1 w0 store2
      uow1 2 rfl rfl (by intro k b hb; simp [mapLookup, uow0] at hb)
      (by decide)).1 .DIRTY,
   (C10_handleless_original_breaks_queries store0 uow0 .widget 1 w0 store2
      uow1 2 rfl rfl (by intro k b hb; simp [mapLookup, uow0] at hb)
      (by decide)).2.1 .CLEAN,
   (C10_handleless_original_breaks_queries store0 uow0 .widget 1 w0 store2
      uow1 2 rfl rfl (by intro k b hb; simp [mapLookup, uow0] at hb)
      (by decide)).2.2⟩

end Everest
